import Mathlib

/-!
Verification of the pazofunc image-upload / inference pipeline.

The repository's algorithmic fragments are embedded shallowly:
pixel colors are rational triples (the k-means centroids are float
means, modelled over ℚ), images are row-major lists of pixels, and
the HTTP handlers become pure functions from a request record to a
response record.  External effects (YOLO model inference, blob
storage, the k-means fit itself) are parameters of the embedded
functions, so every theorem quantifies over them.
-/

namespace Pazofunc

/-- A pixel / color value: three channels, as stored by OpenCV and as
produced by the k-means centroid means. -/
abbrev RGB := ℚ × ℚ × ℚ

/-- Embedding of `get_color_name(rgb)` from `scripts/inference.py`
(the identical copies live in `Upload_image/__init__.py`,
`dresscode_analysis/__init__.py` and `scripts/inference_yoloe.py`):
brightness is the mean of the three channels; bright near-gray is
"white", dark is "black", everything else "other". -/
def get_color_name (rgb : RGB) : String :=
  let r := rgb.1
  let g := rgb.2.1
  let b := rgb.2.2
  let brightness := (r + g + b) / 3
  if brightness > 170 ∧ |r - g| < 40 ∧ |r - b| < 40 then "white"
  else if brightness < 90 then "black"
  else "other"

/-- Shirt-slot part of the violation list built by the `/check_dresscode`
endpoint of `scripts/inference.py` (lines 329-333): an unset slot is
reported as "not detected", a wrongly colored one by the color rule. -/
def shirtViolations (shirt : Option String) : List String :=
  match shirt with
  | none => ["shirt not detected"]
  | some c => if ¬(c = "white" ∨ c = "black") then ["shirt must be white or black"] else []

/-- Pant-slot part of the violation list of `scripts/inference.py`. -/
def pantViolations (pant : Option String) : List String :=
  match pant with
  | none => ["pants not detected"]
  | some c => if ¬(c = "black") then ["pants must be black"] else []

/-- Shoe-slot part of the violation list of `scripts/inference.py`. -/
def shoeViolations (shoe : Option String) : List String :=
  match shoe with
  | none => ["shoes not detected"]
  | some c => if ¬(c = "black") then ["shoes must be black"] else []

/-- The violation list accumulated by `scripts/inference.py`
`check_dresscode` (lines 329-343): the three slot checks append their
messages in order shirt, pant, shoe. -/
def check_dresscode_violations (shirt pant shoe : Option String) : List String :=
  shirtViolations shirt ++ pantViolations pant ++ shoeViolations shoe

/-- Status and message computed by `scripts/inference.py`
`check_dresscode` (lines 345-350) from the violation list. -/
def check_dresscode_result (shirt pant shoe : Option String) : String × String :=
  let violations := check_dresscode_violations shirt pant shoe
  if violations = [] then ("compliant", "Dress code is appropriate.")
  else ("non_compliant", "Dress code violation: " ++ String.intercalate ", " violations)

/-- Violation list of the `analyze_from_blob_url` dresscode branch in
`Upload_image/__init__.py` (lines 112-118), shared verbatim with
`dresscode_analysis/__init__.py` and `scripts/inference_yoloe.py`:
every slot check uses the color-rule message, an unset slot (`None`)
fails the same membership test as a wrong color. -/
def analyze_violations (shirt pant shoe : Option String) : List String :=
  (if ¬(shirt = some "white" ∨ shirt = some "black")
    then ["shirt must be white or black"] else []) ++
  (if ¬(pant = some "black") then ["pants must be black"] else []) ++
  (if ¬(shoe = some "black") then ["shoes must be black"] else [])

/-- Status and message computed by the `analyze_from_blob_url`
dresscode branch in `Upload_image/__init__.py` (lines 109-121): the
compliance predicate is tested first, violations are enumerated only
on its failure. -/
def analyze_dresscode (shirt pant shoe : Option String) : String × String :=
  if (shirt = some "white" ∨ shirt = some "black") ∧
      pant = some "black" ∧ shoe = some "black" then
    ("compliant", "Dress code is appropriate.")
  else
    ("non_compliant",
      "Dress code violation: " ++ String.intercalate ", " (analyze_violations shirt pant shoe))

/-- Resolution of one endpoint of a Python slice `xs[a:b]` on an axis of
length `n`: negative indices count from the end, and both ends are
clamped into `[0, n]`. -/
def sliceClamp (i : Int) (n : Nat) : Nat :=
  if i < 0 then (max 0 (i + n)).toNat else min i.toNat n

/-- One-axis Python slice `xs[a:b]` (step 1), as used by the numpy
indexing `image[y1:y2, x1:x2]`. -/
def sliceList {α : Type} (xs : List α) (a b : Int) : List α :=
  (xs.drop (sliceClamp a xs.length)).take (sliceClamp b xs.length - sliceClamp a xs.length)

/-- The pixels of `image[y1:y2, x1:x2]` in row-major order: the image is
a list of rows, each a list of pixels. -/
def cropPixels (image : List (List RGB)) (x1 y1 x2 y2 : Int) : List RGB :=
  ((sliceList image y1 y2).map (fun row => sliceList row x1 x2)).flatten

/-- `cv2.cvtColor(cropped, cv2.COLOR_BGR2RGB)` applied per pixel: swap
the first and third channel. -/
def bgr2rgb (p : RGB) : RGB := (p.2.2, p.2.1, p.1)

/-- Outcome of a fitted k-means clustering: one label per sample plus
the cluster centroids, as exposed by `kmeans.labels_` and
`kmeans.cluster_centers_`. -/
structure KMeansFit where
  labels : List Nat
  centers : List RGB

/-- The `KMeans(n_clusters=k, n_init=10, random_state=42).fit(pixels)`
call of `get_dominant_color_with_percentage`.  The numeric clustering is
external (scikit-learn) and is therefore a parameter `fit`; the library
interface it is called through rejects a sample list with fewer samples
than clusters by raising `ValueError`, which the repository code does
not catch. -/
def kmeansFit (fit : List RGB → Nat → KMeansFit) (pixels : List RGB) (k : Nat) :
    Except String KMeansFit :=
  if pixels.length < k then .error "n_samples should be >= n_clusters"
  else .ok (fit pixels k)

/-- The distinct labels in order of first occurrence: the iteration
order of `collections.Counter(labels)`. -/
def distinctLabels : List Nat → List Nat
  | [] => []
  | l :: ls => l :: (distinctLabels ls).filter (fun m => m ≠ l)

/-- `Counter(labels).most_common(1)[0]`: the (label, count) pair with
the largest count, ties resolved toward the earliest first occurrence
(`heapq.nlargest` is stable).  The `[]` case is unreachable on the
non-empty label lists the code feeds it. -/
def mostCommon1 (labels : List Nat) : Nat × Nat :=
  match distinctLabels labels with
  | [] => (0, 0)
  | d :: ds =>
    ds.foldl
      (fun best l => if labels.count l > best.2 then (l, labels.count l) else best)
      (d, labels.count d)

/-- `total = sum(counts.values())` over the label counter. -/
def counterTotal (labels : List Nat) : Nat :=
  ((distinctLabels labels).map (fun l => labels.count l)).sum

/-- Embedding of `get_dominant_color_with_percentage(image, box, k=3)`
from `scripts/inference.py` lines 116-129 (identical copies in
`Upload_image/__init__.py`, `dresscode_analysis/__init__.py` and
`scripts/inference_yoloe.py`): crop the box, return ((0,0,0), 0.0) for
an empty crop, otherwise convert BGR→RGB, fit k-means, and return the
centroid of the most populous cluster together with its pixel share
times 100. -/
def get_dominant_color_with_percentage (fit : List RGB → Nat → KMeansFit)
    (image : List (List RGB)) (box : Int × Int × Int × Int) (k : Nat) :
    Except String (RGB × ℚ) :=
  let cropped := cropPixels image box.1 box.2.1 box.2.2.1 box.2.2.2
  if cropped.length = 0 then .ok ((0, 0, 0), 0)
  else
    let pixels := cropped.map bgr2rgb
    match kmeansFit fit pixels k with
    | .error e => .error e
    | .ok kmeans =>
      let total := counterTotal kmeans.labels
      let dom := mostCommon1 kmeans.labels
      let dominant_color := kmeans.centers.getD dom.1 (0, 0, 0)
      let percentage := ((dom.2 : ℚ) / (total : ℚ)) * 100
      .ok (dominant_color, percentage)

/-- The fitted clustering seen by `get_dominant_color_with_percentage`
on a given crop: `fit` applied to the BGR→RGB converted crop pixels. -/
def cropFit (fit : List RGB → Nat → KMeansFit) (image : List (List RGB))
    (x1 y1 x2 y2 : Int) (k : Nat) : KMeansFit :=
  fit ((cropPixels image x1 y1 x2 y2).map bgr2rgb) k

/-- Python `str.lower()` on one character, for the ASCII class labels
the detection models emit. -/
def lowerChar (c : Char) : Char :=
  if 'A' ≤ c ∧ c ≤ 'Z' then Char.ofNat (c.toNat + 32) else c

/-- Python `label.lower()` as a character list. -/
def lowerChars (cs : List Char) : List Char := cs.map lowerChar

/-- The shirt keyword set of the slot-assignment chain. -/
def shirt_keywords : List String := ["shirt", "blouse", "top", "t-shirt", "tee"]

/-- The pant keyword set of the slot-assignment chain. -/
def pant_keywords : List String := ["pant", "trouser", "jean", "slacks"]

/-- The shoe keyword set of the slot-assignment chain. -/
def shoe_keywords : List String := ["shoe", "footwear", "sneaker", "boot"]

/-- `any(k in label for k in keys)`: some keyword occurs as a substring
of the (already lowercased) label. -/
def matchesAny (keys : List String) (label : List Char) : Prop :=
  ∃ k ∈ keys, k.toList <:+: label

instance (keys : List String) (label : List Char) : Decidable (matchesAny keys label) :=
  inferInstanceAs (Decidable (∃ k ∈ keys, k.toList <:+: label))

/-- One detection as consumed by the slot-assignment loop: the class
label, the color name computed for its box, and the confidence (which
the loop reads but never uses). -/
structure Detection where
  label : String
  color : String
  conf : ℚ

/-- One iteration of the detection loop shared by
`Upload_image/__init__.py` (lines 102-107),
`dresscode_analysis/__init__.py` (lines 99-104) and
`scripts/inference_yoloe.py` (lines 65-70): lowercase the label and run
the if/elif keyword chain over the three slots. -/
def assignStep (slots : Option String × Option String × Option String)
    (d : Detection) : Option String × Option String × Option String :=
  let label := lowerChars d.label.toList
  if matchesAny shirt_keywords label then (some d.color, slots.2.1, slots.2.2)
  else if matchesAny pant_keywords label then (slots.1, some d.color, slots.2.2)
  else if matchesAny shoe_keywords label then (slots.1, slots.2.1, some d.color)
  else slots

/-- The whole detection loop: the three slots start unset (None) and
the detections are processed in order. -/
def assignSlots (dets : List Detection) :
    Option String × Option String × Option String :=
  dets.foldl assignStep (none, none, none)

/-- Specification-side reading of the shirt slot: the color computed
from the last detection in the list whose label the chain maps to the
shirt slot. -/
def lastShirtColor : List Detection → Option String
  | [] => none
  | d :: ds =>
    match lastShirtColor ds with
    | some c => some c
    | none =>
      if matchesAny shirt_keywords (lowerChars d.label.toList) then some d.color
      else none

/-- Specification-side reading of the pant slot: the chain maps a label
to the pant slot when it has a pant keyword but no shirt keyword. -/
def lastPantColor : List Detection → Option String
  | [] => none
  | d :: ds =>
    match lastPantColor ds with
    | some c => some c
    | none =>
      if ¬matchesAny shirt_keywords (lowerChars d.label.toList) ∧
          matchesAny pant_keywords (lowerChars d.label.toList) then some d.color
      else none

/-- Specification-side reading of the shoe slot: a shoe keyword and no
shirt or pant keyword. -/
def lastShoeColor : List Detection → Option String
  | [] => none
  | d :: ds =>
    match lastShoeColor ds with
    | some c => some c
    | none =>
      if ¬matchesAny shirt_keywords (lowerChars d.label.toList) ∧
          ¬matchesAny pant_keywords (lowerChars d.label.toList) ∧
          matchesAny shoe_keywords (lowerChars d.label.toList) then some d.color
      else none

/-- One detection row as serialized by the dustbin endpoints: label,
confidence and bounding box. -/
structure DustbinDetection where
  label : String
  confidence : ℚ
  bbox : List ℚ

/-- Per-image result element built by `detect_dustbin` in
`scripts/dustbin_detection.py` (lines 40-49). -/
structure DustbinImageResult where
  image : Nat
  status : String
  message : String
  detections : List DustbinDetection
  total_dustbins : Nat

/-- `scripts/dustbin_detection.py` lines 40-49: the verdict is
"dustbin_found" exactly on a non-empty detection list, and the total
count is the list length. -/
def detect_dustbin_image (i : Nat) (dets : List DustbinDetection) : DustbinImageResult :=
  { image := i
    status := if dets.isEmpty then "no_dustbin" else "dustbin_found"
    message :=
      if dets.isEmpty then "No dustbin detected"
      else "Found " ++ toString dets.length ++ " dustbin(s)"
    detections := dets
    total_dustbins := dets.length }

/-- Result body of the dustbin Azure function. -/
structure DustbinBlobResult where
  status : String
  message : String
  detections : List DustbinDetection
  blob_url : String

/-- `dustbin_detection/__init__.py` lines 88-111: same verdict rule,
without a separate total-count field. -/
def dustbin_blob_result (blob_url : String) (dets : List DustbinDetection) : DustbinBlobResult :=
  { status := if dets.isEmpty then "no_dustbin" else "dustbin_found"
    message :=
      if dets.isEmpty then "No dustbin detected in the image."
      else "Detected " ++ toString dets.length ++ " dustbin(s)."
    detections := dets
    blob_url := blob_url }

/-- The three response shapes `Upload_image/__init__.py` `main` can
produce: a list of analysis results, the plain upload-success envelope,
or a JSON error object with a descriptive message. -/
inductive RespKind where
  | analysisResults
  | uploadSuccess
  | errorMsg

/-- An HTTP response as far as the validation claims are concerned:
status code and body shape. -/
structure HttpResp where
  status : Nat
  kind : RespKind

/-- The request data `Upload_image/__init__.py` `main` reads: the
`action` query parameter (default "upload"), `blob_url` from the query
or from the JSON body, and the uploaded files. -/
structure UploadRequest where
  action_param : Option String
  blob_url_param : Option String
  blob_url_body : Option String
  files : List String

/-- Embedding of `main(req)` of `Upload_image/__init__.py` (lines
159-289).  Outbound effects are parameters: `connStr` is the
`AZURE_STORAGE_CONNECTION_STRING` environment variable (its absence
raises, caught by the outer handler as a 500) and `uploadErr` the first
exception of the blob-storage interactions (`none` when they succeed).
`analyze_from_blob_url` catches all its own exceptions and returns a
dict, so every analysis branch answers 200. -/
def upload_main (req : UploadRequest) (connStr : Option String)
    (uploadErr : Option String) : HttpResp :=
  let action := req.action_param.getD "upload"
  let blob_url :=
    match req.blob_url_param with
    | some u => some u
    | none => req.blob_url_body
  if blob_url.isSome ∧ (action = "dresscode" ∨ action = "dustbin") then
    { status := 200, kind := .analysisResults }
  else
    let files := if blob_url.isNone then req.files else []
    if blob_url.isNone ∧ files = [] then
      { status := 400, kind := .errorMsg }
    else
      match connStr with
      | none => { status := 500, kind := .errorMsg }
      | some _ =>
        match uploadErr with
        | some _ => { status := 500, kind := .errorMsg }
        | none =>
          if action = "dresscode" ∨ action = "dustbin" then
            { status := 200, kind := .analysisResults }
          else
            { status := 200, kind := .uploadSuccess }

end Pazofunc


namespace Pazofunc

lemma shirtViolations_eq_nil (s : Option String) :
    shirtViolations s = [] ↔ (s = some "white" ∨ s = some "black") := by
  cases s with
  | none => simp [shirtViolations]
  | some c =>
    simp only [shirtViolations]
    split_ifs with hc <;> simp_all

lemma pantViolations_eq_nil (p : Option String) :
    pantViolations p = [] ↔ p = some "black" := by
  cases p with
  | none => simp [pantViolations]
  | some c =>
    simp only [pantViolations]
    split_ifs with hc <;> simp_all

lemma shoeViolations_eq_nil (s : Option String) :
    shoeViolations s = [] ↔ s = some "black" := by
  cases s with
  | none => simp [shoeViolations]
  | some c =>
    simp only [shoeViolations]
    split_ifs with hc <;> simp_all

lemma check_dresscode_compliant_iff (shirt pant shoe : Option String) :
    (check_dresscode_result shirt pant shoe).1 = "compliant" ↔
      ((shirt = some "white" ∨ shirt = some "black") ∧
        pant = some "black" ∧ shoe = some "black") := by
  simp only [check_dresscode_result]
  split_ifs with hv
  · simp only [check_dresscode_violations, List.append_eq_nil] at hv
    simp [shirtViolations_eq_nil, pantViolations_eq_nil, shoeViolations_eq_nil] at hv
    simp [hv]
  · constructor
    · intro habs; simp at habs
    · intro hc
      exact absurd (by
        simp only [check_dresscode_violations, List.append_eq_nil]
        exact ⟨⟨(shirtViolations_eq_nil shirt).2 hc.1,
          (pantViolations_eq_nil pant).2 hc.2.1⟩,
          (shoeViolations_eq_nil shoe).2 hc.2.2⟩) hv

lemma analyze_compliant_iff (shirt pant shoe : Option String) :
    (analyze_dresscode shirt pant shoe).1 = "compliant" ↔
      ((shirt = some "white" ∨ shirt = some "black") ∧
        pant = some "black" ∧ shoe = some "black") := by
  simp only [analyze_dresscode]
  split_ifs with hc
  · simp [hc]
  · constructor
    · intro habs; simp at habs
    · intro h; exact absurd h hc

lemma check_dresscode_status_cases (shirt pant shoe : Option String) :
    (check_dresscode_result shirt pant shoe).1 = "compliant" ∨
      (check_dresscode_result shirt pant shoe).1 = "non_compliant" := by
  simp only [check_dresscode_result]
  split_ifs <;> simp

lemma analyze_status_cases (shirt pant shoe : Option String) :
    (analyze_dresscode shirt pant shoe).1 = "compliant" ∨
      (analyze_dresscode shirt pant shoe).1 = "non_compliant" := by
  simp only [analyze_dresscode]
  split_ifs <;> simp

lemma shirtViolations_length (s : Option String) :
    (shirtViolations s).length =
      if s = some "white" ∨ s = some "black" then 0 else 1 := by
  cases s with
  | none => simp [shirtViolations]
  | some c =>
    simp only [shirtViolations]
    split_ifs <;> simp_all

lemma pantViolations_length (p : Option String) :
    (pantViolations p).length = if p = some "black" then 0 else 1 := by
  cases p with
  | none => simp [pantViolations]
  | some c =>
    simp only [pantViolations]
    split_ifs <;> simp_all

lemma shoeViolations_length (s : Option String) :
    (shoeViolations s).length = if s = some "black" then 0 else 1 := by
  cases s with
  | none => simp [shoeViolations]
  | some c =>
    simp only [shoeViolations]
    split_ifs <;> simp_all

lemma mem_distinctLabels {m : Nat} : ∀ {ls : List Nat}, m ∈ distinctLabels ls ↔ m ∈ ls := by
  intro ls
  induction ls with
  | nil => simp [distinctLabels]
  | cons l ls ih =>
    by_cases hm : m = l <;>
      simp [distinctLabels, List.mem_filter, ih, hm]

lemma nodup_distinctLabels : ∀ ls : List Nat, (distinctLabels ls).Nodup := by
  intro ls
  induction ls with
  | nil => simp [distinctLabels]
  | cons l ls ih =>
    simp only [distinctLabels, List.nodup_cons]
    refine ⟨?_, ih.filter _⟩
    intro hmem
    have := (List.mem_filter.1 hmem).2
    simp at this

lemma sum_map_nodup_split (f : Nat → Nat) (l : Nat) :
    ∀ {d : List Nat}, d.Nodup →
      (d.map f).sum =
        (if l ∈ d then f l else 0) + ((d.filter (fun m => m ≠ l)).map f).sum := by
  intro d
  induction d with
  | nil => simp
  | cons a d ih =>
    intro hd
    have had : a ∉ d := (List.nodup_cons.1 hd).1
    have hdn : d.Nodup := (List.nodup_cons.1 hd).2
    by_cases hla : l = a
    · subst hla
      have hfd : d.filter (fun m => m ≠ l) = d :=
        List.filter_eq_self.2 (fun m hm => by
          simp only [decide_eq_true_eq]
          exact fun he => had (he ▸ hm))
      have hcons : (l :: d).filter (fun m => m ≠ l) = d.filter (fun m => m ≠ l) := by
        simp [List.filter_cons]
      rw [hcons, hfd, if_pos (List.mem_cons_self l d)]
      simp
    · have hal : a ≠ l := fun h => hla h.symm
      have hfd : (a :: d).filter (fun m => m ≠ l) = a :: d.filter (fun m => m ≠ l) := by
        simp [List.filter_cons, hal]
      rw [hfd]
      simp only [List.map_cons, List.sum_cons, List.mem_cons]
      rw [ih hdn]
      have hiff : (l = a ∨ l ∈ d) ↔ l ∈ d := by simp [hla]
      rw [if_congr hiff rfl rfl]
      split_ifs <;> omega

lemma counterTotal_eq_length : ∀ ls : List Nat, counterTotal ls = ls.length := by
  intro ls
  induction ls with
  | nil => rfl
  | cons l ls ih =>
    have hsplit :
        ((distinctLabels ls).map (fun m => ls.count m)).sum =
          (if l ∈ distinctLabels ls then ls.count l else 0) +
            (((distinctLabels ls).filter (fun m => m ≠ l)).map (fun m => ls.count m)).sum :=
      sum_map_nodup_split (fun m => ls.count m) l (nodup_distinctLabels ls)
    have hcongr :
        ((distinctLabels ls).filter (fun m => m ≠ l)).map (fun m => (l :: ls).count m) =
          ((distinctLabels ls).filter (fun m => m ≠ l)).map (fun m => ls.count m) := by
      apply List.map_congr_left
      intro m hm
      have hml : m ≠ l := by
        have := (List.mem_filter.1 hm).2
        simpa using this
      exact List.count_cons_of_ne hml ls
    unfold counterTotal at ih ⊢
    simp only [distinctLabels, List.map_cons, List.sum_cons, hcongr,
      List.count_cons_self, List.length_cons]
    by_cases hl : l ∈ ls
    · rw [if_pos (mem_distinctLabels.2 hl)] at hsplit
      omega
    · rw [if_neg (fun hmem => hl (mem_distinctLabels.1 hmem))] at hsplit
      have hz : ls.count l = 0 := List.count_eq_zero.2 hl
      omega

lemma foldl_mostCommon_invariant (labels : List Nat) :
    ∀ (ds : List Nat) (b : Nat × Nat), b.1 ∈ labels → b.2 = labels.count b.1 →
      (∀ l ∈ ds, l ∈ labels) →
      ((ds.foldl
          (fun best l => if labels.count l > best.2 then (l, labels.count l) else best)
          b).1 ∈ labels ∧
        (ds.foldl
          (fun best l => if labels.count l > best.2 then (l, labels.count l) else best)
          b).2 =
          labels.count
            (ds.foldl
              (fun best l => if labels.count l > best.2 then (l, labels.count l) else best)
              b).1 ∧
        b.2 ≤
          (ds.foldl
            (fun best l => if labels.count l > best.2 then (l, labels.count l) else best)
            b).2 ∧
        ∀ l ∈ ds,
          labels.count l ≤
            (ds.foldl
              (fun best l => if labels.count l > best.2 then (l, labels.count l) else best)
              b).2) := by
  intro ds
  induction ds with
  | nil =>
    intro b hb1 hb2 _
    exact ⟨hb1, hb2, le_rfl, by simp⟩
  | cons d ds ih =>
    intro b hb1 hb2 hds
    simp only [List.foldl_cons]
    have hstep :
        (if labels.count d > b.2 then (d, labels.count d) else b).1 ∈ labels ∧
          (if labels.count d > b.2 then (d, labels.count d) else b).2 =
            labels.count (if labels.count d > b.2 then (d, labels.count d) else b).1 ∧
          b.2 ≤ (if labels.count d > b.2 then (d, labels.count d) else b).2 ∧
          labels.count d ≤ (if labels.count d > b.2 then (d, labels.count d) else b).2 := by
      split_ifs with h
      · exact ⟨hds d (List.mem_cons_self d ds), rfl, le_of_lt h, le_rfl⟩
      · exact ⟨hb1, hb2, le_rfl, Nat.le_of_not_lt h⟩
    obtain ⟨h1, h2, h3, h4⟩ := hstep
    obtain ⟨r1, r2, r3, r4⟩ :=
      ih _ h1 h2 (fun l hl => hds l (List.mem_cons_of_mem _ hl))
    refine ⟨r1, r2, le_trans h3 r3, ?_⟩
    intro l hl
    rcases List.mem_cons.1 hl with rfl | hl
    · exact le_trans h4 r3
    · exact r4 l hl

lemma mostCommon1_spec (labels : List Nat) (h : labels ≠ []) :
    (mostCommon1 labels).1 ∈ labels ∧
      (mostCommon1 labels).2 = labels.count (mostCommon1 labels).1 ∧
      ∀ l ∈ labels, labels.count l ≤ (mostCommon1 labels).2 := by
  cases hd : distinctLabels labels with
  | nil =>
    exfalso
    obtain ⟨m, hm⟩ := List.exists_mem_of_ne_nil labels h
    have hmem := (@mem_distinctLabels m labels).2 hm
    rw [hd] at hmem
    exact absurd hmem (List.not_mem_nil m)
  | cons d ds =>
    have hdmem : d ∈ labels :=
      mem_distinctLabels.1 (hd ▸ List.mem_cons_self d ds)
    have hds : ∀ l ∈ ds, l ∈ labels := fun l hl =>
      mem_distinctLabels.1 (hd ▸ List.mem_cons_of_mem d hl)
    have hmc :
        mostCommon1 labels =
          ds.foldl
            (fun best l => if labels.count l > best.2 then (l, labels.count l) else best)
            (d, labels.count d) := by
      unfold mostCommon1
      rw [hd]
    obtain ⟨r1, r2, r3, r4⟩ :=
      foldl_mostCommon_invariant labels ds (d, labels.count d) hdmem rfl hds
    rw [hmc]
    refine ⟨r1, r2, ?_⟩
    intro l hl
    have hld := mem_distinctLabels.2 hl
    rw [hd] at hld
    rcases List.mem_cons.1 hld with rfl | hmem
    · exact r3
    · exact r4 l hmem

/-- C1: `get_color_name` returns "white" exactly when the mean of the
channels exceeds 170 and both |r−g| and |r−b| are below 40; otherwise
"black" exactly when the mean is below 90; otherwise "other".  The
listed concrete triples, including the brightness boundary at 170/171,
behave as stated. -/
theorem c1_get_color_name (r g b : ℚ) :
    (get_color_name (r, g, b) = "white" ↔
      ((r + g + b) / 3 > 170 ∧ |r - g| < 40 ∧ |r - b| < 40)) ∧
    (get_color_name (r, g, b) = "black" ↔
      (¬((r + g + b) / 3 > 170 ∧ |r - g| < 40 ∧ |r - b| < 40) ∧
        (r + g + b) / 3 < 90)) ∧
    (get_color_name (r, g, b) = "other" ↔
      (¬((r + g + b) / 3 > 170 ∧ |r - g| < 40 ∧ |r - b| < 40) ∧
        ¬((r + g + b) / 3 < 90))) ∧
    get_color_name (250, 250, 250) = "white" ∧
    get_color_name (10, 10, 10) = "black" ∧
    get_color_name (120, 40, 200) = "other" ∧
    get_color_name (171, 171, 171) = "white" ∧
    get_color_name (169, 169, 169) = "other" := by
  refine ⟨?_, ?_, ?_, by norm_num [get_color_name], by norm_num [get_color_name],
    by norm_num [get_color_name], by norm_num [get_color_name],
    by norm_num [get_color_name]⟩ <;>
    · simp only [get_color_name]
      split_ifs with h1 h2 <;> simp_all

lemma sliceClamp_le_of_le {a b : Int} (hb : 0 ≤ b) (hba : b ≤ a) (n : Nat) :
    sliceClamp b n ≤ sliceClamp a n := by
  unfold sliceClamp
  rw [if_neg (not_lt.2 hb), if_neg (not_lt.2 (le_trans hb hba))]
  exact min_le_min (Int.toNat_le_toNat hba) le_rfl

lemma sliceList_eq_nil {α : Type} (xs : List α) {a b : Int} (hb : 0 ≤ b) (hba : b ≤ a) :
    sliceList xs a b = [] := by
  unfold sliceList
  rw [Nat.sub_eq_zero_of_le (sliceClamp_le_of_le hb hba xs.length)]
  exact List.take_zero _

lemma cropPixels_eq_nil_of_x {x1 x2 : Int} (image : List (List RGB)) (y1 y2 : Int)
    (hx2 : 0 ≤ x2) (hx : x2 ≤ x1) : cropPixels image x1 y1 x2 y2 = [] := by
  unfold cropPixels
  rw [List.flatten_eq_nil_iff]
  intro l hl
  obtain ⟨row, _, rfl⟩ := List.mem_map.1 hl
  exact sliceList_eq_nil row hx2 hx

lemma cropPixels_eq_nil_of_y {y1 y2 : Int} (image : List (List RGB)) (x1 x2 : Int)
    (hy2 : 0 ≤ y2) (hy : y2 ≤ y1) : cropPixels image x1 y1 x2 y2 = [] := by
  unfold cropPixels
  rw [sliceList_eq_nil image hy2 hy]
  simp

/-- C3: whenever the integer crop of the box is empty — in particular
whenever x2 ≤ x1 or y2 ≤ y1 in pixel (non-negative) coordinates —
`get_dominant_color_with_percentage` returns ((0,0,0), 0.0) normally
rather than an error. -/
theorem c3_empty_crop (fit : List RGB → Nat → KMeansFit) (image : List (List RGB))
    (x1 y1 x2 y2 : Int) (k : Nat)
    (h : (0 ≤ x2 ∧ x2 ≤ x1) ∨ (0 ≤ y2 ∧ y2 ≤ y1) ∨ cropPixels image x1 y1 x2 y2 = []) :
    get_dominant_color_with_percentage fit image (x1, y1, x2, y2) k = .ok ((0, 0, 0), 0) := by
  have hcrop : cropPixels image x1 y1 x2 y2 = [] := by
    rcases h with ⟨h1, h2⟩ | ⟨h1, h2⟩ | h
    · exact cropPixels_eq_nil_of_x image y1 y2 h1 h2
    · exact cropPixels_eq_nil_of_y image x1 x2 h1 h2
    · exact h
  simp [get_dominant_color_with_percentage, hcrop]

/-- C3 witness: a degenerate box with x2 = x1 = 0 on a 1×1 image. -/
theorem c3_empty_crop_witness :
    get_dominant_color_with_percentage (fun _ _ => ⟨[], []⟩) [[(1, 2, 3)]] (0, 0, 0, 0) 3 =
      .ok ((0, 0, 0), 0) :=
  c3_empty_crop (fun _ _ => ⟨[], []⟩) [[(1, 2, 3)]] 0 0 0 0 3 (Or.inl ⟨le_rfl, le_rfl⟩)

/-- C5 counterexample: on a 1×1 image with the full-image box and the
default k = 3, the crop is non-empty but has fewer pixels than
clusters, so the `KMeans.fit` call raises and the function does not
return normally, contradicting the claim's "raises no error ... even
for non-empty crops containing fewer than k pixels". -/
theorem c5_small_crop_errors :
    (get_dominant_color_with_percentage (fun _ _ => ⟨[], []⟩)
      [[(5, 5, 5)]] (0, 0, 1, 1) 3).isOk = false := by
  decide

/-- C5 (amended): `get_dominant_color_with_percentage` returns normally
— a color and a percentage, possibly the degenerate ((0,0,0), 0.0) —
for every crop that is empty or contains at least k pixels; only a
non-empty crop with fewer than k pixels makes the k-means fit raise. -/
theorem c5_returns_on_adequate_crops (fit : List RGB → Nat → KMeansFit)
    (image : List (List RGB)) (x1 y1 x2 y2 : Int) (k : Nat)
    (h : cropPixels image x1 y1 x2 y2 = [] ∨ k ≤ (cropPixels image x1 y1 x2 y2).length) :
    (get_dominant_color_with_percentage fit image (x1, y1, x2, y2) k).isOk = true := by
  by_cases hc : (cropPixels image x1 y1 x2 y2).length = 0
  · simp [get_dominant_color_with_percentage, hc, Except.isOk, Except.toBool]
  · have hk : k ≤ (cropPixels image x1 y1 x2 y2).length := by
      rcases h with h | h
      · exact absurd (by simp [h]) hc
      · exact h
    have hnl : ¬((cropPixels image x1 y1 x2 y2).length < k) := Nat.not_lt.2 hk
    simp [get_dominant_color_with_percentage, kmeansFit, hc, hnl,
      Except.isOk, Except.toBool]

/-- C5 witness for the amended statement: a 3-pixel crop with k = 3
returns normally. -/
theorem c5_returns_on_adequate_crops_witness :
    (get_dominant_color_with_percentage (fun _ _ => ⟨[0, 1, 0], [(1, 2, 3)]⟩)
      [[(1, 1, 1), (2, 2, 2), (3, 3, 3)]] (0, 0, 3, 1) 3).isOk = true :=
  c5_returns_on_adequate_crops (fun _ _ => ⟨[0, 1, 0], [(1, 2, 3)]⟩)
    [[(1, 1, 1), (2, 2, 2), (3, 3, 3)]] 0 0 3 1 3 (Or.inr (by decide))

lemma get_dominant_eq (fit : List RGB → Nat → KMeansFit) (image : List (List RGB))
    (x1 y1 x2 y2 : Int) (k : Nat)
    (hc0 : ¬((cropPixels image x1 y1 x2 y2).length = 0))
    (hk : k ≤ (cropPixels image x1 y1 x2 y2).length) :
    get_dominant_color_with_percentage fit image (x1, y1, x2, y2) k =
      .ok ((cropFit fit image x1 y1 x2 y2 k).centers.getD
          (mostCommon1 (cropFit fit image x1 y1 x2 y2 k).labels).1 (0, 0, 0),
        (((mostCommon1 (cropFit fit image x1 y1 x2 y2 k).labels).2 : ℚ) /
          ((counterTotal (cropFit fit image x1 y1 x2 y2 k).labels : ℚ))) * 100) := by
  have hnl : ¬((cropPixels image x1 y1 x2 y2).length < k) := Nat.not_lt.2 hk
  simp [get_dominant_color_with_percentage, kmeansFit, hc0, hnl, cropFit]

/-- C4: on a non-empty crop (with enough pixels for the k-means fit to
succeed, and a well-formed fit outcome), the function returns the
centroid of a cluster whose pixel count is maximal among all clusters,
and the percentage is that cluster's pixel count divided by the total
pixel count of the crop, expressed in percent (times 100). -/
theorem c4_dominant_cluster (fit : List RGB → Nat → KMeansFit) (image : List (List RGB))
    (x1 y1 x2 y2 : Int) (k : Nat)
    (hne : cropPixels image x1 y1 x2 y2 ≠ [])
    (hk : k ≤ (cropPixels image x1 y1 x2 y2).length)
    (hlen : (cropFit fit image x1 y1 x2 y2 k).labels.length =
      (cropPixels image x1 y1 x2 y2).length)
    (hlab : ∀ l ∈ (cropFit fit image x1 y1 x2 y2 k).labels, l < k) :
    ∃ i, i < k ∧ i ∈ (cropFit fit image x1 y1 x2 y2 k).labels ∧
      get_dominant_color_with_percentage fit image (x1, y1, x2, y2) k =
        .ok ((cropFit fit image x1 y1 x2 y2 k).centers.getD i (0, 0, 0),
          (((cropFit fit image x1 y1 x2 y2 k).labels.count i : ℚ) /
            ((cropPixels image x1 y1 x2 y2).length : ℚ)) * 100) ∧
      ∀ j ∈ (cropFit fit image x1 y1 x2 y2 k).labels,
        (cropFit fit image x1 y1 x2 y2 k).labels.count j ≤
          (cropFit fit image x1 y1 x2 y2 k).labels.count i := by
  have hlnn : (cropFit fit image x1 y1 x2 y2 k).labels ≠ [] := by
    intro h0
    rw [h0] at hlen
    have h1 : (cropPixels image x1 y1 x2 y2).length = 0 := by simpa using hlen.symm
    exact hne (List.eq_nil_of_length_eq_zero h1)
  obtain ⟨hmem, hcnt, hmax⟩ := mostCommon1_spec _ hlnn
  refine ⟨(mostCommon1 (cropFit fit image x1 y1 x2 y2 k).labels).1,
    hlab _ hmem, hmem, ?_, ?_⟩
  · have hc0 : ¬((cropPixels image x1 y1 x2 y2).length = 0) := fun h0 =>
      hne (List.eq_nil_of_length_eq_zero h0)
    rw [get_dominant_eq fit image x1 y1 x2 y2 k hc0 hk, hcnt,
      counterTotal_eq_length, hlen]
  · intro j hj
    have hmj := hmax j hj
    rw [hcnt] at hmj
    exact hmj

/-- C4 witness: a 3-pixel crop clustered into labels [0, 1, 0] has
dominant cluster 0 with 2 of 3 pixels. -/
theorem c4_dominant_cluster_witness :
    ∃ i, i < 3 ∧
      i ∈ (cropFit (fun _ _ => ⟨[0, 1, 0], [(10, 20, 30), (4, 5, 6), (7, 8, 9)]⟩)
        [[(1, 1, 1), (2, 2, 2), (3, 3, 3)]] 0 0 3 1 3).labels ∧
      get_dominant_color_with_percentage
          (fun _ _ => ⟨[0, 1, 0], [(10, 20, 30), (4, 5, 6), (7, 8, 9)]⟩)
          [[(1, 1, 1), (2, 2, 2), (3, 3, 3)]] (0, 0, 3, 1) 3 =
        .ok ((cropFit (fun _ _ => ⟨[0, 1, 0], [(10, 20, 30), (4, 5, 6), (7, 8, 9)]⟩)
            [[(1, 1, 1), (2, 2, 2), (3, 3, 3)]] 0 0 3 1 3).centers.getD i (0, 0, 0),
          (((cropFit (fun _ _ => ⟨[0, 1, 0], [(10, 20, 30), (4, 5, 6), (7, 8, 9)]⟩)
              [[(1, 1, 1), (2, 2, 2), (3, 3, 3)]] 0 0 3 1 3).labels.count i : ℚ) /
            ((cropPixels [[(1, 1, 1), (2, 2, 2), (3, 3, 3)]] 0 0 3 1).length : ℚ)) * 100) ∧
      ∀ j ∈ (cropFit (fun _ _ => ⟨[0, 1, 0], [(10, 20, 30), (4, 5, 6), (7, 8, 9)]⟩)
          [[(1, 1, 1), (2, 2, 2), (3, 3, 3)]] 0 0 3 1 3).labels,
        (cropFit (fun _ _ => ⟨[0, 1, 0], [(10, 20, 30), (4, 5, 6), (7, 8, 9)]⟩)
            [[(1, 1, 1), (2, 2, 2), (3, 3, 3)]] 0 0 3 1 3).labels.count j ≤
          (cropFit (fun _ _ => ⟨[0, 1, 0], [(10, 20, 30), (4, 5, 6), (7, 8, 9)]⟩)
              [[(1, 1, 1), (2, 2, 2), (3, 3, 3)]] 0 0 3 1 3).labels.count i :=
  c4_dominant_cluster (fun _ _ => ⟨[0, 1, 0], [(10, 20, 30), (4, 5, 6), (7, 8, 9)]⟩)
    [[(1, 1, 1), (2, 2, 2), (3, 3, 3)]] 0 0 3 1 3
    (by decide) (by decide) (by decide) (by decide)

lemma assignStep_fst (s : Option String × Option String × Option String)
    (d : Detection) :
    (assignStep s d).1 =
      if matchesAny shirt_keywords (lowerChars d.label.toList) then some d.color
      else s.1 := by
  simp only [assignStep]
  split_ifs <;> rfl

lemma assignStep_pant (s : Option String × Option String × Option String)
    (d : Detection) :
    (assignStep s d).2.1 =
      if ¬matchesAny shirt_keywords (lowerChars d.label.toList) ∧
          matchesAny pant_keywords (lowerChars d.label.toList) then some d.color
      else s.2.1 := by
  simp only [assignStep]
  split_ifs <;> simp_all

lemma assignStep_shoe (s : Option String × Option String × Option String)
    (d : Detection) :
    (assignStep s d).2.2 =
      if ¬matchesAny shirt_keywords (lowerChars d.label.toList) ∧
          ¬matchesAny pant_keywords (lowerChars d.label.toList) ∧
          matchesAny shoe_keywords (lowerChars d.label.toList) then some d.color
      else s.2.2 := by
  simp only [assignStep]
  split_ifs <;> simp_all

lemma foldl_assignStep_shirt (dets : List Detection) :
    ∀ s, (dets.foldl assignStep s).1 = (lastShirtColor dets).elim s.1 some := by
  induction dets with
  | nil => intro s; simp [lastShirtColor]
  | cons d ds ih =>
    intro s
    rw [List.foldl_cons, ih]
    cases h : lastShirtColor ds with
    | some c => simp [lastShirtColor, h]
    | none =>
      simp only [lastShirtColor, h, assignStep_fst]
      split_ifs <;> rfl

lemma foldl_assignStep_pant (dets : List Detection) :
    ∀ s, (dets.foldl assignStep s).2.1 = (lastPantColor dets).elim s.2.1 some := by
  induction dets with
  | nil => intro s; simp [lastPantColor]
  | cons d ds ih =>
    intro s
    rw [List.foldl_cons, ih]
    cases h : lastPantColor ds with
    | some c => simp [lastPantColor, h]
    | none =>
      simp only [lastPantColor, h, assignStep_pant]
      split_ifs <;> rfl

lemma foldl_assignStep_shoe (dets : List Detection) :
    ∀ s, (dets.foldl assignStep s).2.2 = (lastShoeColor dets).elim s.2.2 some := by
  induction dets with
  | nil => intro s; simp [lastShoeColor]
  | cons d ds ih =>
    intro s
    rw [List.foldl_cons, ih]
    cases h : lastShoeColor ds with
    | some c => simp [lastShoeColor, h]
    | none =>
      simp only [lastShoeColor, h, assignStep_shoe]
      split_ifs <;> rfl

lemma assignSlots_shirt (dets : List Detection) :
    (assignSlots dets).1 = lastShirtColor dets := by
  unfold assignSlots
  rw [foldl_assignStep_shirt dets (none, none, none)]
  cases lastShirtColor dets <;> rfl

lemma assignSlots_pant (dets : List Detection) :
    (assignSlots dets).2.1 = lastPantColor dets := by
  unfold assignSlots
  rw [foldl_assignStep_pant dets (none, none, none)]
  cases lastPantColor dets <;> rfl

lemma assignSlots_shoe (dets : List Detection) :
    (assignSlots dets).2.2 = lastShoeColor dets := by
  unfold assignSlots
  rw [foldl_assignStep_shoe dets (none, none, none)]
  cases lastShoeColor dets <;> rfl

/-- C8: for every detection sequence, each slot ends with the color of
the last detection the keyword chain maps to it (shirt, pant and shoe
keyword sets as in the source, matched as substrings of the lowercased
label); confidence plays no role.  The concrete example shows two
detections mapping to the shirt slot where the later, lower-confidence
one wins. -/
theorem c8_last_detection_wins (dets : List Detection) :
    assignSlots dets =
      (lastShirtColor dets, lastPantColor dets, lastShoeColor dets) ∧
    assignSlots [⟨"shirt", "white", 9 / 10⟩, ⟨"t-shirt", "other", 1 / 10⟩] =
      (some "other", none, none) := by
  constructor
  · exact Prod.ext_iff.2 ⟨assignSlots_shirt dets,
      Prod.ext_iff.2 ⟨assignSlots_pant dets, assignSlots_shoe dets⟩⟩
  · decide

/-- C10: appending one detection to any processed sequence updates at
most one slot, chosen by the fixed priority order shirt, pant, shoe of
the if/elif chain: a label with keywords of several sets updates only
the highest-priority matching slot. -/
theorem c10_priority_chain (dets : List Detection) (d : Detection) :
    (matchesAny shirt_keywords (lowerChars d.label.toList) →
      assignSlots (dets ++ [d]) =
        (some d.color, (assignSlots dets).2.1, (assignSlots dets).2.2)) ∧
    (¬matchesAny shirt_keywords (lowerChars d.label.toList) →
      matchesAny pant_keywords (lowerChars d.label.toList) →
      assignSlots (dets ++ [d]) =
        ((assignSlots dets).1, some d.color, (assignSlots dets).2.2)) ∧
    (¬matchesAny shirt_keywords (lowerChars d.label.toList) →
      ¬matchesAny pant_keywords (lowerChars d.label.toList) →
      matchesAny shoe_keywords (lowerChars d.label.toList) →
      assignSlots (dets ++ [d]) =
        ((assignSlots dets).1, (assignSlots dets).2.1, some d.color)) ∧
    (¬matchesAny shirt_keywords (lowerChars d.label.toList) →
      ¬matchesAny pant_keywords (lowerChars d.label.toList) →
      ¬matchesAny shoe_keywords (lowerChars d.label.toList) →
      assignSlots (dets ++ [d]) = assignSlots dets) := by
  have happ : assignSlots (dets ++ [d]) = assignStep (assignSlots dets) d := by
    unfold assignSlots
    rw [List.foldl_append]
    rfl
  refine ⟨?_, ?_, ?_, ?_⟩
  · intro h1
    rw [happ]
    simp only [assignStep]
    rw [if_pos h1]
  · intro h1 h2
    rw [happ]
    simp only [assignStep]
    rw [if_neg h1, if_pos h2]
  · intro h1 h2 h3
    rw [happ]
    simp only [assignStep]
    rw [if_neg h1, if_neg h2, if_pos h3]
  · intro h1 h2 h3
    rw [happ]
    simp only [assignStep]
    rw [if_neg h1, if_neg h2, if_neg h3]

/-- C10 witness: the label "Top Pants" carries both a shirt keyword
("top") and a pant keyword ("pant"); only the shirt slot is updated. -/
theorem c10_priority_chain_witness :
    matchesAny shirt_keywords
      (lowerChars (Detection.mk "Top Pants" "white" 1).label.toList) ∧
    matchesAny pant_keywords
      (lowerChars (Detection.mk "Top Pants" "white" 1).label.toList) ∧
    assignSlots ([] ++ [Detection.mk "Top Pants" "white" 1]) =
      (some "white", none, none) :=
  ⟨by decide, by decide,
    (c10_priority_chain [] (Detection.mk "Top Pants" "white" 1)).1 (by decide)⟩

/-- C2: both dress-code code paths return status "compliant" exactly
when shirt is "white" or "black", pant is "black" and shoe is "black";
an unset (None) slot forces "non_compliant"; the three listed concrete
assignments behave as stated. -/
theorem c2_dresscode_compliance (shirt pant shoe : Option String) :
    ((check_dresscode_result shirt pant shoe).1 = "compliant" ↔
      ((shirt = some "white" ∨ shirt = some "black") ∧
        pant = some "black" ∧ shoe = some "black")) ∧
    ((analyze_dresscode shirt pant shoe).1 = "compliant" ↔
      ((shirt = some "white" ∨ shirt = some "black") ∧
        pant = some "black" ∧ shoe = some "black")) ∧
    (shirt = none ∨ pant = none ∨ shoe = none →
      (check_dresscode_result shirt pant shoe).1 = "non_compliant" ∧
      (analyze_dresscode shirt pant shoe).1 = "non_compliant") ∧
    (check_dresscode_result (some "white") (some "black") (some "black")).1 = "compliant" ∧
    (check_dresscode_result (some "other") (some "black") (some "black")).1 = "non_compliant" ∧
    (check_dresscode_result none (some "black") (some "black")).1 = "non_compliant" := by
  refine ⟨check_dresscode_compliant_iff shirt pant shoe,
    analyze_compliant_iff shirt pant shoe, ?_, ?_, ?_, ?_⟩
  · intro hnone
    constructor
    · rcases check_dresscode_status_cases shirt pant shoe with h | h
      · have hp := (check_dresscode_compliant_iff shirt pant shoe).1 h
        rcases hnone with h0 | h0 | h0 <;> subst h0 <;> simp_all
      · exact h
    · rcases analyze_status_cases shirt pant shoe with h | h
      · have hp := (analyze_compliant_iff shirt pant shoe).1 h
        rcases hnone with h0 | h0 | h0 <;> subst h0 <;> simp_all
      · exact h
  · exact (check_dresscode_compliant_iff _ _ _).2 ⟨Or.inl rfl, rfl, rfl⟩
  · rcases check_dresscode_status_cases (some "other") (some "black") (some "black") with h | h
    · have hp := (check_dresscode_compliant_iff _ _ _).1 h
      simp at hp
    · exact h
  · rcases check_dresscode_status_cases none (some "black") (some "black") with h | h
    · have hp := (check_dresscode_compliant_iff _ _ _).1 h
      simp at hp
    · exact h

/-- C2 witness: the theorem applied to the concrete unset-shirt
assignment, discharging the unset-slot hypothesis. -/
theorem c2_dresscode_compliance_witness :
    (check_dresscode_result none (some "black") (some "black")).1 = "non_compliant" ∧
      (analyze_dresscode none (some "black") (some "black")).1 = "non_compliant" :=
  (c2_dresscode_compliance none (some "black") (some "black")).2.2.1 (Or.inl rfl)

/-- C7: whenever the `scripts/inference.py` dress-code check judges an
assignment non-compliant, the violation list is the concatenation of
the three per-slot lists, and each slot contributes no entry when it
satisfies its rule and exactly one entry when it fails (unset or
wrongly colored); the `Upload_image` / `dresscode_analysis` variant
enumerates one entry per failing slot as well. -/
theorem c7_violation_enumeration (shirt pant shoe : Option String)
    (h : (check_dresscode_result shirt pant shoe).1 = "non_compliant") :
    check_dresscode_violations shirt pant shoe =
      shirtViolations shirt ++ pantViolations pant ++ shoeViolations shoe ∧
    ((shirtViolations shirt).length =
      if shirt = some "white" ∨ shirt = some "black" then 0 else 1) ∧
    ((pantViolations pant).length = if pant = some "black" then 0 else 1) ∧
    ((shoeViolations shoe).length = if shoe = some "black" then 0 else 1) ∧
    ((analyze_violations shirt pant shoe).length =
      (if shirt = some "white" ∨ shirt = some "black" then 0 else 1) +
        (if pant = some "black" then 0 else 1) +
        (if shoe = some "black" then 0 else 1)) := by
  refine ⟨rfl, shirtViolations_length shirt, pantViolations_length pant,
    shoeViolations_length shoe, ?_⟩
  simp only [analyze_violations, List.length_append]
  split_ifs <;> simp

/-- C7 witness: a wrongly colored shirt with compliant pants and shoes
contributes exactly one violation entry. -/
theorem c7_violation_enumeration_witness :
    (shirtViolations (some "other")).length = 1 ∧
      (analyze_violations (some "other") (some "black") (some "black")).length = 1 := by
  have h := c7_violation_enumeration (some "other") (some "black") (some "black") (by decide)
  exact ⟨by simpa using h.2.1, by simpa using h.2.2.2.2⟩

/-- C9: both dustbin endpoints answer "dustbin_found" exactly when the
detection list is non-empty; an empty list gives status "no_dustbin",
an empty detections field and a total count of 0, and the total count
always equals the number of detections. -/
theorem c9_dustbin_verdict (i : Nat) (url : String) (dets : List DustbinDetection) :
    ((detect_dustbin_image i dets).status = "dustbin_found" ↔ dets ≠ []) ∧
    ((dustbin_blob_result url dets).status = "dustbin_found" ↔ dets ≠ []) ∧
    (dets = [] →
      (detect_dustbin_image i dets).status = "no_dustbin" ∧
      (detect_dustbin_image i dets).detections = [] ∧
      (detect_dustbin_image i dets).total_dustbins = 0 ∧
      (dustbin_blob_result url dets).status = "no_dustbin" ∧
      (dustbin_blob_result url dets).detections = []) ∧
    (detect_dustbin_image i dets).total_dustbins = dets.length := by
  refine ⟨?_, ?_, ?_, rfl⟩
  · simp only [detect_dustbin_image]
    cases dets <;> simp
  · simp only [dustbin_blob_result]
    cases dets <;> simp
  · intro hd
    subst hd
    exact ⟨rfl, rfl, rfl, rfl, rfl⟩

/-- C9 witness: the empty detection list yields the no-dustbin verdict
with zero total. -/
theorem c9_dustbin_verdict_witness :
    (detect_dustbin_image 1 []).status = "no_dustbin" ∧
      (detect_dustbin_image 1 []).total_dustbins = 0 ∧
      (dustbin_blob_result "url" []).status = "no_dustbin" := by
  have h := (c9_dustbin_verdict 1 "url" []).2.2.1 rfl
  exact ⟨h.1, h.2.2.1, h.2.2.2.1⟩

/-- C6 counterexample: a request with a file attached and the
unsupported action selector "lights" is not rejected — the handler
ignores the action, uploads the file and returns the 200 upload-success
envelope, contradicting "non-200 ... never a 200 success envelope" for
unsupported categories. -/
theorem c6_unsupported_category_accepted :
    upload_main ⟨some "lights", none, none, ["a.jpg"]⟩ (some "conn") none =
      { status := 200, kind := .uploadSuccess } ∧
    ¬("lights" = "dresscode" ∨ "lights" = "dustbin" ∨ "lights" = "upload") :=
  ⟨rfl, by decide⟩

/-- C6 (amended): a request carrying no files and no blob_url is
rejected with a 400 error response; an unsupported category/action
selector, however, is not validated — with files present and a working
storage backend the handler performs a plain upload and answers with
the 200 success envelope. -/
theorem c6_validation_amended (req : UploadRequest) (connStr uploadErr : Option String)
    (hreq : req.blob_url_param = none ∧ req.blob_url_body = none ∧ req.files = []) :
    upload_main req connStr uploadErr = { status := 400, kind := .errorMsg } ∧
    ∀ (action : String) (files : List String) (cs : String),
      ¬(action = "dresscode" ∨ action = "dustbin") → files ≠ [] →
      upload_main ⟨some action, none, none, files⟩ (some cs) none =
        { status := 200, kind := .uploadSuccess } := by
  obtain ⟨h1, h2, h3⟩ := hreq
  constructor
  · simp [upload_main, h1, h2, h3]
  · intro action files cs ha hf
    simp [upload_main, ha, hf]

/-- C6 witness: the empty request is rejected with 400; a file upload
under the unrecognized action "lights" sails through with 200. -/
theorem c6_validation_amended_witness :
    upload_main ⟨none, none, none, []⟩ none none =
      { status := 400, kind := .errorMsg } ∧
    upload_main ⟨some "lights", none, none, ["b.jpg"]⟩ (some "c") none =
      { status := 200, kind := .uploadSuccess } :=
  ⟨(c6_validation_amended ⟨none, none, none, []⟩ none none ⟨rfl, rfl, rfl⟩).1,
    (c6_validation_amended ⟨none, none, none, []⟩ none none ⟨rfl, rfl, rfl⟩).2
      "lights" ["b.jpg"] "c" (by decide) (by decide)⟩

end Pazofunc
